import Mathlib

/-!
Verification of the BotLink job-application automation core against its
specification.  The Python source is shallowly embedded: the OpSec rate
governor (`src/domain/services/opsec_service.py`), the AI option resolver
(`src/infrastructure/ai/openai_adapter.py`, `form_filler.py`), the form-field
extractors (`src/infrastructure/parsers/job_parser.py`, `form_filler.py`) and
the application flow controller (`src/application/use_cases/apply_to_job.py`).

Modelling conventions: wall-clock instants are natural numbers counting
seconds, calendar days are natural numbers; `random.randint(a, b)` is an
explicit parameter `r` constrained by `a ≤ r ≤ b`; collaborator calls
(browser, OpenAI, storage) are scripted by explicit environment records;
Python exceptions become `Except String`.
-/

namespace BotLink

/-- Configuration surface consumed by the OpSec governor
(`src/config/settings.py`, fields RNF-01..RNF-05). -/
structure SettingsM where
  daily_limit : Nat
  warmup_enabled : Bool
  pause_after_applications : Nat
  pause_duration_min : Nat
  pause_duration_max : Nat
  max_consecutive_errors : Nat
  deriving Repr, DecidableEq

/-- `OpSecState` dataclass (`opsec_service.py` lines 21-31).  `today` is a
day number, `pause_until` and `last_application_time` are second-resolution
timestamps. -/
structure OpSecStateM where
  today : Nat
  applications_today : Nat
  consecutive_errors : Nat
  account_age_days : Nat
  last_application_time : Option Nat
  is_paused : Bool
  pause_until : Option Nat
  deriving Repr, DecidableEq

/-- `OpSecService.get_daily_limit` (`opsec_service.py` lines 55-68):
warm-up disabled returns the configured limit; otherwise the
`WARMUP_SCHEDULE` dict `{1: 10, 2: 20, 3: 30}` is consulted and misses fall
back to `min(DEFAULT_LIMIT = 40, daily_limit)`. -/
def get_daily_limit (cfg : SettingsM) (st : OpSecStateM) : Nat :=
  if ¬ cfg.warmup_enabled then cfg.daily_limit
  else if st.account_age_days = 1 then 10
  else if st.account_age_days = 2 then 20
  else if st.account_age_days = 3 then 30
  else min 40 cfg.daily_limit

/-- Day-rollover reset at the top of `can_apply` (`opsec_service.py` lines
77-81): when the stored day differs from today, both counters reset and the
stored day is updated. -/
def dayReset (st : OpSecStateM) (curDay : Nat) : OpSecStateM :=
  if st.today ≠ curDay then
    { st with today := curDay, applications_today := 0, consecutive_errors := 0 }
  else st

/-- Message built at `opsec_service.py` line 87. -/
def pauseActiveMsg (remaining : Nat) : String :=
  "Pausa obrigatória. Retorno em " ++ toString remaining ++ " minutos."

/-- Message built at `opsec_service.py` line 95. -/
def dailyLimitMsg (limit : Nat) : String :=
  "Limite diário atingido (" ++ toString limit ++ " candidaturas)."

/-- Message built at `opsec_service.py` line 99. -/
def consecutiveErrorsMsg (errors : Nat) : String :=
  "Muitos erros consecutivos (" ++ toString errors ++ "). Sessão abortada."

/-- Message built at `opsec_service.py` line 117. -/
def intervalPauseMsg (pauseMinutes n : Nat) : String :=
  "Pausa de " ++ toString pauseMinutes ++ " minutos após " ++ toString n ++
    " candidaturas."

/-- The fall-through part of `can_apply` after the paused-state check
(`opsec_service.py` lines 92-119): daily limit, consecutive errors, interval
pause trigger, then allow.  `r` is the value drawn by
`random.randint(pause_duration_min, pause_duration_max)` (minutes); the dead
`asyncio.timedelta` branch at lines 111-113 is immediately overwritten by the
`datetime.timedelta` fallback at line 116, so the stored `pause_until` is
`now + r` minutes. -/
def canApplyAfterPause (cfg : SettingsM) (st : OpSecStateM) (now r : Nat) :
    OpSecStateM × Bool × String :=
  let limit := get_daily_limit cfg st
  if st.applications_today ≥ limit then
    (st, false, dailyLimitMsg limit)
  else if st.consecutive_errors ≥ cfg.max_consecutive_errors then
    (st, false, consecutiveErrorsMsg st.consecutive_errors)
  else if st.applications_today > 0 ∧
      st.applications_today % cfg.pause_after_applications = 0 then
    ({ st with is_paused := true, pause_until := some (now + r * 60) },
      false, intervalPauseMsg r cfg.pause_after_applications)
  else
    (st, true, "")

/-- `OpSecService.can_apply` (`opsec_service.py` lines 70-119).  Returns the
mutated state together with the `(can_apply, reason)` pair.  `curDay` models
`date.today()`, `now` models `datetime.now()` in seconds, and the remaining
minutes in the active-pause message is `(pause_until - now).seconds // 60`. -/
def can_apply (cfg : SettingsM) (st : OpSecStateM) (curDay now r : Nat) :
    OpSecStateM × Bool × String :=
  let st1 := dayReset st curDay
  if st1.is_paused then
    match st1.pause_until with
    | some t =>
      if now < t then
        (st1, false, pauseActiveMsg ((t - now) / 60))
      else
        canApplyAfterPause cfg
          { st1 with is_paused := false, pause_until := none } now r
    | none =>
      canApplyAfterPause cfg
        { st1 with is_paused := false, pause_until := none } now r
  else
    canApplyAfterPause cfg st1 now r

/-- `OpSecService.record_success` (`opsec_service.py` lines 149-153). -/
def record_success (st : OpSecStateM) (now : Nat) : OpSecStateM :=
  { st with applications_today := st.applications_today + 1,
            consecutive_errors := 0,
            last_application_time := some now }

/-- `OpSecService.record_failure` (`opsec_service.py` lines 155-158). -/
def record_failure (st : OpSecStateM) (now : Nat) : OpSecStateM :=
  { st with consecutive_errors := st.consecutive_errors + 1,
            last_application_time := some now }

/-- `OpSecService.record_skip` (`opsec_service.py` lines 160-162). -/
def record_skip (st : OpSecStateM) : OpSecStateM :=
  { st with consecutive_errors := 0 }

/-- The settings used by the repository's own unit-test fixture
(`tests/unit/test_opsec_service.py` lines 18-29). -/
def cfgTest : SettingsM :=
  { daily_limit := 50, warmup_enabled := true, pause_after_applications := 10,
    pause_duration_min := 15, pause_duration_max := 30,
    max_consecutive_errors := 3 }

/-- A state on day 5 with ten applications recorded and no active pause. -/
def stInterval : OpSecStateM :=
  { today := 5, applications_today := 10, consecutive_errors := 0,
    account_age_days := 0, last_application_time := none,
    is_paused := false, pause_until := none }

/-- A state on day 5 with ten applications recorded whose mandatory pause
(`pause_until = 900` seconds) has already elapsed by `now = 1000`. -/
def stExpiredPause : OpSecStateM :=
  { today := 5, applications_today := 10, consecutive_errors := 0,
    account_age_days := 0, last_application_time := none,
    is_paused := true, pause_until := some 900 }

/-- C3: `dailyLimit()` returns the configured daily limit whenever warm-up is
disabled; with warm-up enabled it returns 10, 20, or 30 for
`accountAgeDays` equal to 1, 2, or 3 respectively, and
`min(40, configuredLimit)` for every other account age. -/
theorem C3_daily_limit (cfg : SettingsM) (st : OpSecStateM) :
    (cfg.warmup_enabled = false → get_daily_limit cfg st = cfg.daily_limit) ∧
    (cfg.warmup_enabled = true →
      (st.account_age_days = 1 → get_daily_limit cfg st = 10) ∧
      (st.account_age_days = 2 → get_daily_limit cfg st = 20) ∧
      (st.account_age_days = 3 → get_daily_limit cfg st = 30) ∧
      (st.account_age_days ≠ 1 → st.account_age_days ≠ 2 →
        st.account_age_days ≠ 3 →
        get_daily_limit cfg st = min 40 cfg.daily_limit)) := by
  unfold get_daily_limit
  refine ⟨fun h => by simp [h], fun h => ⟨fun h1 => by simp [h, h1],
    fun h2 => by simp [h, h2], fun h3 => by simp [h, h3],
    fun h1 h2 h3 => by simp [h, h1, h2, h3]⟩⟩

/-- Witness for C3: warm-up enabled, account age 5, configured limit 50. -/
theorem C3_daily_limit_witness :
    get_daily_limit cfgTest { stInterval with account_age_days := 5 } =
      min 40 cfgTest.daily_limit :=
  ((C3_daily_limit cfgTest _).2 rfl).2.2.2 (by decide) (by decide) (by decide)

/-- C4: `recordSuccess()` increments `applicationsToday` by exactly 1 and
resets `consecutiveErrors` to 0; `recordFailure()` increments
`consecutiveErrors` by exactly 1 and leaves `applicationsToday` unchanged;
`recordSkip()` resets `consecutiveErrors` to 0 and leaves
`applicationsToday` unchanged. -/
theorem C4_record_effects (st : OpSecStateM) (now : Nat) :
    (record_success st now).applications_today = st.applications_today + 1 ∧
    (record_success st now).consecutive_errors = 0 ∧
    (record_failure st now).consecutive_errors = st.consecutive_errors + 1 ∧
    (record_failure st now).applications_today = st.applications_today ∧
    (record_skip st).consecutive_errors = 0 ∧
    (record_skip st).applications_today = st.applications_today :=
  ⟨rfl, rfl, rfl, rfl, rfl, rfl⟩

/-- C1: `canApply()` performs the idempotent day-rollover reset first and
then evaluates, in order: active unexpired pause (deny with remaining
minutes), expired pause (clear and continue), daily limit (deny), consecutive
errors (deny), interval-pause trigger (arm a pause `r` minutes ahead, with
`r` the `randint(pauseDurationMin, pauseDurationMax)` draw, and deny), else
allow with the empty reason — at most one block reason per call. -/
theorem C1_can_apply_order (cfg : SettingsM) (st : OpSecStateM)
    (curDay now r : Nat) :
    -- the rollover reset: sets the stored day, zeroes counters, idempotent
    dayReset (dayReset st curDay) curDay = dayReset st curDay ∧
    (dayReset st curDay).today = curDay ∧
    (st.today ≠ curDay → (dayReset st curDay).applications_today = 0 ∧
      (dayReset st curDay).consecutive_errors = 0) ∧
    (st.today = curDay → dayReset st curDay = st) ∧
    -- (a) active pause not yet elapsed: deny with remaining minutes
    (∀ t, (dayReset st curDay).is_paused = true →
      (dayReset st curDay).pause_until = some t → now < t →
      can_apply cfg st curDay now r =
        (dayReset st curDay, false, pauseActiveMsg ((t - now) / 60))) ∧
    -- (a') elapsed (or absent) pause: cleared, evaluation continues
    ((dayReset st curDay).is_paused = true →
      (∀ t, (dayReset st curDay).pause_until = some t → t ≤ now) →
      can_apply cfg st curDay now r =
        canApplyAfterPause cfg
          { dayReset st curDay with is_paused := false, pause_until := none }
          now r) ∧
    ((dayReset st curDay).is_paused = false →
      can_apply cfg st curDay now r =
        canApplyAfterPause cfg (dayReset st curDay) now r) ∧
    -- (b) daily limit precedes (c) which precedes (d)
    (∀ s, s.applications_today ≥ get_daily_limit cfg s →
      canApplyAfterPause cfg s now r =
        (s, false, dailyLimitMsg (get_daily_limit cfg s))) ∧
    (∀ s, s.applications_today < get_daily_limit cfg s →
      s.consecutive_errors ≥ cfg.max_consecutive_errors →
      canApplyAfterPause cfg s now r =
        (s, false, consecutiveErrorsMsg s.consecutive_errors)) ∧
    -- (d) interval-pause trigger: pause armed strictly in the future within
    -- [pauseDurationMin, pauseDurationMax] minutes of now
    (∀ s, s.applications_today < get_daily_limit cfg s →
      s.consecutive_errors < cfg.max_consecutive_errors →
      0 < s.applications_today →
      s.applications_today % cfg.pause_after_applications = 0 →
      canApplyAfterPause cfg s now r =
        ({ s with is_paused := true, pause_until := some (now + r * 60) },
          false, intervalPauseMsg r cfg.pause_after_applications) ∧
      (∀ t, (canApplyAfterPause cfg s now r).1.pause_until = some t →
        cfg.pause_duration_min ≤ r → r ≤ cfg.pause_duration_max →
        now + cfg.pause_duration_min * 60 ≤ t ∧
        t ≤ now + cfg.pause_duration_max * 60 ∧
        (1 ≤ cfg.pause_duration_min → now < t))) ∧
    -- (e) no block: allowed with empty reason
    (∀ s, s.applications_today < get_daily_limit cfg s →
      s.consecutive_errors < cfg.max_consecutive_errors →
      ¬(0 < s.applications_today ∧
        s.applications_today % cfg.pause_after_applications = 0) →
      canApplyAfterPause cfg s now r = (s, true, "")) := by
  refine ⟨?_, ?_, ?_, ?_, ?_, ?_, ?_, ?_, ?_, ?_, ?_⟩
  · unfold dayReset
    by_cases h : st.today = curDay <;> simp [h]
  · unfold dayReset
    by_cases h : st.today = curDay <;> simp [h]
  · intro h
    simp [dayReset, h]
  · intro h
    simp [dayReset, h]
  · intro t hp hpu hlt
    unfold can_apply
    simp only [hp, if_true, hpu, hlt, if_pos]
  · intro hp he
    unfold can_apply
    cases hpu : (dayReset st curDay).pause_until with
    | none => simp [hp, hpu]
    | some t =>
        have ht : ¬ now < t := Nat.not_lt.mpr (he t hpu)
        simp [hp, hpu, ht]
  · intro hp
    unfold can_apply
    simp [hp]
  · intro s h
    unfold canApplyAfterPause
    simp only [ge_iff_le]
    rw [if_pos h]
  · intro s h1 h2
    unfold canApplyAfterPause
    simp only [ge_iff_le]
    rw [if_neg (Nat.not_le.mpr h1), if_pos h2]
  · intro s h1 h2 h3 h4
    have heq : canApplyAfterPause cfg s now r =
        ({ s with is_paused := true, pause_until := some (now + r * 60) },
          false, intervalPauseMsg r cfg.pause_after_applications) := by
      unfold canApplyAfterPause
      simp only [ge_iff_le]
      rw [if_neg (Nat.not_le.mpr h1), if_neg (Nat.not_le.mpr h2),
        if_pos ⟨h3, h4⟩]
    refine ⟨heq, ?_⟩
    intro t hpu hr1 hr2
    rw [heq] at hpu
    simp only [Option.some.injEq] at hpu
    subst hpu
    refine ⟨by omega, by omega, fun hmin => by omega⟩
  · intro s h1 h2 h3
    unfold canApplyAfterPause
    simp only [ge_iff_le]
    rw [if_neg (Nat.not_le.mpr h1), if_neg (Nat.not_le.mpr h2), if_neg h3]

/-- Witness for C1: on the test settings, a state with ten applications and
no active pause hits the interval-pause trigger with draw `r = 15` and is
denied with a pause armed 900 seconds ahead. -/
theorem C1_can_apply_order_witness :
    can_apply cfgTest stInterval 5 1000 15 =
      ({ stInterval with is_paused := true, pause_until := some (1000 + 15 * 60) },
        false, intervalPauseMsg 15 cfgTest.pause_after_applications) := by
  have h := C1_can_apply_order cfgTest stInterval 5 1000 15
  have h4 : dayReset stInterval 5 = stInterval := h.2.2.2.1 rfl
  have h7 := h.2.2.2.2.2.2.1 (by rw [h4]; rfl)
  rw [h7, h4]
  exact (h.2.2.2.2.2.2.2.2.2.1 stInterval (by decide) (by decide) (by decide)
    (by decide)).1

/-- C2 (code divergence): in the reachable state where the mandatory pause
armed at `applicationsToday = 10` has elapsed (`pauseUntil = 900 < now =
1000`), counters unchanged, under the daily limit and the error threshold,
`canApply()` does clear the old pause but then immediately re-enters the
interval-pause branch (10 is still divisible by 10) and denies with a fresh
pause 15 minutes ahead, instead of returning allowed as the specification
requires. -/
theorem C2_expired_pause_relocks :
    can_apply cfgTest stExpiredPause 5 1000 15 =
      ({ stExpiredPause with is_paused := true, pause_until := some (1000 + 15 * 60) },
        false, intervalPauseMsg 15 cfgTest.pause_after_applications) ∧
    stExpiredPause.applications_today < get_daily_limit cfgTest stExpiredPause ∧
    stExpiredPause.consecutive_errors < cfgTest.max_consecutive_errors ∧
    (can_apply cfgTest stExpiredPause 5 1000 15).2.1 = false ∧
    (can_apply cfgTest stExpiredPause 5 1000 15).1.is_paused = true := by
  refine ⟨?_, by decide, by decide, ?_, ?_⟩ <;> rfl

/-! ### Answer Resolver: option matching

`OpenAIAdapter.get_selected_option` (`openai_adapter.py` lines 151-180) and
`AIFormFiller._fill_select_field` (`form_filler.py` lines 498-541).
Python string primitives are modelled over the character list. -/

/-- Python `str.lower()` (ASCII). -/
def pyLower (s : String) : String := String.mk (s.toList.map Char.toLower)

/-- Python `str.strip()`: remove leading and trailing whitespace. -/
def pyStrip (s : String) : String :=
  String.mk
    (((s.toList.dropWhile Char.isWhitespace).reverse.dropWhile
      Char.isWhitespace).reverse)

/-- Python substring containment `needle in hay` on character lists. -/
def listInfix (needle : List Char) : List Char → Bool
  | [] => needle.isEmpty
  | c :: rest => needle.isPrefixOf (c :: rest) || listInfix needle rest

/-- Python `needle in hay` for strings. -/
def strIn (needle hay : String) : Bool := listInfix needle.toList hay.toList

/-- Python `str.strip(c)`: remove all leading and trailing occurrences of a
single character. -/
def stripChar (c : Char) (s : String) : String :=
  String.mk (((s.toList.dropWhile (· == c)).reverse.dropWhile (· == c)).reverse)

/-- Python `response.strip().strip(DQUOTE).strip(QUOTE)` as applied to the
oracle's raw answer (`form_filler.py` line 516). -/
def pyStripQuotes (s : String) : String :=
  stripChar '\'' (stripChar '"' (pyStrip s))

/-- Values produced by `json.loads` on the oracle's JSON-mode content
(`openai_adapter.py` line 126). -/
inductive JsonVal where
  | jstr (s : String)
  | jnum (n : Int)
  | jbool (b : Bool)
  | jnull
  | jarr (xs : List JsonVal)
  | jobj (kvs : List (String × JsonVal))
  deriving Repr

/-- Python truthiness of a parsed JSON value (`if response.json_data`). -/
def jsonTruthy : JsonVal → Bool
  | .jstr s => !(s == "")
  | .jnum n => !(n == 0)
  | .jbool b => b
  | .jnull => false
  | .jarr xs => !xs.isEmpty
  | .jobj kvs => !kvs.isEmpty

/-- Python `"selected_option" in json_data`: key membership for dicts,
element membership for lists, substring search for strings, `TypeError` for
the non-iterable values. -/
def jsonContainsSelectedKey : JsonVal → Except String Bool
  | .jobj kvs => .ok (kvs.any (fun kv => kv.1 == "selected_option"))
  | .jarr xs =>
      .ok (xs.any (fun v => match v with
        | .jstr s => s == "selected_option"
        | _ => false))
  | .jstr s => .ok (strIn "selected_option" s)
  | _ => .error "TypeError: argument of type is not iterable"

/-- Python `json_data[QUOTE selected_option QUOTE]`: dict lookup, `TypeError`
otherwise. -/
def jsonGetSelected : JsonVal → Except String JsonVal
  | .jobj kvs =>
      match kvs.find? (fun kv => kv.1 == "selected_option") with
      | some kv => .ok kv.2
      | none => .error "KeyError: selected_option"
  | _ => .error "TypeError: indices must be integers"

/-- Python `selected.lower()`: only strings carry `.lower`, every other JSON
value raises `AttributeError`. -/
def jsonLower : JsonVal → Except String String
  | .jstr s => .ok (pyLower s)
  | _ => .error "AttributeError: lower"

/-- First loop of `get_selected_option` (`openai_adapter.py` lines 171-173):
scan for an exact case-insensitive match; `selected.lower()` is evaluated
inside the loop body, so it raises only when at least one option exists. -/
def findExactLoop (options : List String) (sel : JsonVal) :
    Except String (Option String) :=
  match options with
  | [] => .ok none
  | opt :: rest =>
      match jsonLower sel with
      | .error e => .error e
      | .ok s =>
          if pyLower opt == s then .ok (some opt)
          else findExactLoop rest sel

/-- Second loop of `get_selected_option` (`openai_adapter.py` lines 175-177):
scan for case-insensitive substring containment in either direction. -/
def findSubstrLoop (options : List String) (sel : JsonVal) :
    Except String (Option String) :=
  match options with
  | [] => .ok none
  | opt :: rest =>
      match jsonLower sel with
      | .error e => .error e
      | .ok s =>
          if strIn s (pyLower opt) || strIn (pyLower opt) s then .ok (some opt)
          else findSubstrLoop rest sel

/-- Python `options[0] if options else QUOTE QUOTE`
(`openai_adapter.py` line 180). -/
def defaultOpt : List String → String
  | [] => ""
  | o :: _ => o

/-- `OpenAIAdapter.get_selected_option` (`openai_adapter.py` lines 151-180),
abstracted over the already-parsed response: `jsonData` models
`response.json_data` (set only when `json.loads` succeeded) and `tokens`
models `response.tokens_used`. -/
def get_selected_option (jsonData : Option JsonVal) (tokens : Nat)
    (options : List String) : Except String (String × Nat) :=
  match jsonData with
  | some j =>
      if jsonTruthy j then
        match jsonContainsSelectedKey j with
        | .error e => .error e
        | .ok true =>
            match jsonGetSelected j with
            | .error e => .error e
            | .ok sel =>
                match findExactLoop options sel with
                | .error e => .error e
                | .ok (some opt) => .ok (opt, tokens)
                | .ok none =>
                    match findSubstrLoop options sel with
                    | .error e => .error e
                    | .ok (some opt) => .ok (opt, tokens)
                    | .ok none => .ok (defaultOpt options, tokens)
        | .ok false => .ok (defaultOpt options, tokens)
      else .ok (defaultOpt options, tokens)
  | none => .ok (defaultOpt options, tokens)

/-- The `best_match` accumulation loop of `AIFormFiller._fill_select_field`
(`form_filler.py` lines 519-525): breaks on an exact case-insensitive match
but keeps overwriting `best_match` on substring matches. -/
def bestMatchLoop (chosen : String) : List String → Option String → Option String
  | [], best => best
  | opt :: rest, best =>
      if pyLower opt == pyLower chosen then some opt
      else if strIn (pyLower chosen) (pyLower opt) ||
          strIn (pyLower opt) (pyLower chosen) then
        bestMatchLoop chosen rest (some opt)
      else bestMatchLoop chosen rest best

/-- `AIFormFiller._fill_select_field` (`form_filler.py` lines 498-541),
abstracted over the oracle's raw string `response`; the result is the option
text passed to `select_option`, or `none` when nothing is selected (empty
option list, or falsy oracle response). -/
def fill_select_field (options : List String) (response : String) :
    Option String :=
  if options.isEmpty then none
  else if response == "" then none
  else
    match bestMatchLoop (pyStripQuotes response) options none with
    | some b => some b
    | none => some (defaultOpt options)

/-- Modelled from the spec's words for the refinement comparison of C9:
exact case-insensitive match first, then the FIRST option related by
case-insensitive substring containment in either direction, else the first
option. -/
def resolverSpecChoice (options : List String) (answer : String) :
    Option String :=
  match options.find? (fun o => pyLower o == pyLower answer) with
  | some o => some o
  | none =>
      match options.find? (fun o =>
          strIn (pyLower answer) (pyLower o) ||
          strIn (pyLower o) (pyLower answer)) with
      | some o => some o
      | none => options.head?

/-- The last element of a list satisfying `p`. -/
def findLast (p : String → Bool) : List String → Option String
  | [] => none
  | x :: xs =>
      match findLast p xs with
      | some y => some y
      | none => if p x then some x else none

/-- Python `x or y` on optionals: the left value when present. -/
def orElseOpt {α : Type} (x y : Option α) : Option α :=
  match x with
  | some a => some a
  | none => y

/-- The choice `_fill_select_field` actually implements: exact
case-insensitive match first, then the LAST option related by substring
containment, else the first option. -/
def ffLastChoice (options : List String) (chosen : String) : Option String :=
  match options.find? (fun o => pyLower o == pyLower chosen) with
  | some o => some o
  | none =>
      match findLast (fun o =>
          strIn (pyLower chosen) (pyLower o) ||
          strIn (pyLower o) (pyLower chosen)) options with
      | some o => some o
      | none => options.head?

/-- When the parsed `selected_option` is a string, the adapter's first loop
is the first exact case-insensitive match. -/
theorem findExactLoop_jstr (options : List String) (s : String) :
    findExactLoop options (.jstr s) =
      .ok (options.find? (fun o => pyLower o == pyLower s)) := by
  induction options with
  | nil => rfl
  | cons opt rest ih =>
      simp only [findExactLoop, jsonLower, List.find?]
      cases hx : (pyLower opt == pyLower s) <;> simp [hx, ih]

/-- When the parsed `selected_option` is a string, the adapter's second loop
is the first substring-containment match. -/
theorem findSubstrLoop_jstr (options : List String) (s : String) :
    findSubstrLoop options (.jstr s) =
      .ok (options.find? (fun o =>
        strIn (pyLower s) (pyLower o) || strIn (pyLower o) (pyLower s))) := by
  induction options with
  | nil => rfl
  | cons opt rest ih =>
      simp only [findSubstrLoop, jsonLower, List.find?]
      cases hx : (strIn (pyLower s) (pyLower opt) ||
          strIn (pyLower opt) (pyLower s)) <;> simp [hx, ih]

/-- `get_selected_option` on a string-valued `selected_option` implements
exactly the spec\'s choice function (exact match, then FIRST substring match,
then first option). -/
theorem get_selected_option_jstr (options : List String) (sel : String)
    (tokens : Nat) :
    get_selected_option (some (.jobj [("selected_option", .jstr sel)]))
        tokens options =
      .ok ((resolverSpecChoice options sel).getD "", tokens) := by
  have h1 : get_selected_option
      (some (.jobj [("selected_option", .jstr sel)])) tokens options =
      (match findExactLoop options (.jstr sel) with
        | Except.error e => Except.error e
        | Except.ok (some opt) => Except.ok (opt, tokens)
        | Except.ok none =>
            match findSubstrLoop options (.jstr sel) with
            | Except.error e => Except.error e
            | Except.ok (some opt) => Except.ok (opt, tokens)
            | Except.ok none => Except.ok (defaultOpt options, tokens)) := rfl
  rw [h1, findExactLoop_jstr, findSubstrLoop_jstr]
  unfold resolverSpecChoice
  cases hE : options.find? (fun o => pyLower o == pyLower sel) with
  | some o => simp
  | none =>
      cases hS : options.find? (fun o =>
          strIn (pyLower sel) (pyLower o) ||
          strIn (pyLower o) (pyLower sel)) with
      | some o => simp
      | none => cases options <;> simp [defaultOpt]

/-- The `best_match` loop breaks at the first exact case-insensitive match,
whatever has been accumulated. -/
theorem bestMatchLoop_exact (chosen : String) (options : List String)
    (acc : Option String) (o : String)
    (h : options.find? (fun x => pyLower x == pyLower chosen) = some o) :
    bestMatchLoop chosen options acc = some o := by
  induction options generalizing acc with
  | nil => simp at h
  | cons opt rest ih =>
      by_cases hx : (pyLower opt == pyLower chosen) = true
      · rw [List.find?_cons_of_pos (p := fun x => pyLower x == pyLower chosen) rest hx] at h
        simp only [Option.some.injEq] at h
        subst h
        simp [bestMatchLoop, hx]
      · rw [List.find?_cons_of_neg (p := fun x => pyLower x == pyLower chosen) rest hx] at h
        unfold bestMatchLoop
        rw [if_neg hx]
        by_cases hs : (strIn (pyLower chosen) (pyLower opt) ||
            strIn (pyLower opt) (pyLower chosen)) = true
        · rw [if_pos hs]
          exact ih _ h
        · rw [if_neg hs]
          exact ih _ h

/-- Without an exact match, the `best_match` loop returns the LAST
substring-containment match, falling back to the accumulator. -/
theorem bestMatchLoop_no_exact (chosen : String) (options : List String)
    (acc : Option String)
    (h : options.find? (fun x => pyLower x == pyLower chosen) = none) :
    bestMatchLoop chosen options acc =
      orElseOpt (findLast (fun o =>
        strIn (pyLower chosen) (pyLower o) ||
        strIn (pyLower o) (pyLower chosen)) options) acc := by
  induction options generalizing acc with
  | nil => rfl
  | cons opt rest ih =>
      by_cases hx : (pyLower opt == pyLower chosen) = true
      · rw [List.find?_cons_of_pos (p := fun x => pyLower x == pyLower chosen) rest hx] at h
        exact absurd h (by simp)
      · rw [List.find?_cons_of_neg (p := fun x => pyLower x == pyLower chosen) rest hx] at h
        unfold bestMatchLoop
        rw [if_neg hx]
        by_cases hs : (strIn (pyLower chosen) (pyLower opt) ||
            strIn (pyLower opt) (pyLower chosen)) = true
        · rw [if_pos hs, ih _ h]
          simp only [findLast]
          cases hr : findLast (fun o =>
              strIn (pyLower chosen) (pyLower o) ||
              strIn (pyLower o) (pyLower chosen)) rest <;>
            simp [hr, hs, orElseOpt]
        · rw [if_neg hs, ih _ h]
          simp only [findLast]
          cases hr : findLast (fun o =>
              strIn (pyLower chosen) (pyLower o) ||
              strIn (pyLower o) (pyLower chosen)) rest <;>
            simp [hr, hs, orElseOpt]

/-- The selection `_fill_select_field` makes, in closed form: exact match
first, otherwise the LAST substring-containment match, otherwise the first
option. -/
theorem fill_select_field_eq (options : List String) (resp : String)
    (hne : options ≠ []) (hresp : resp ≠ "") :
    fill_select_field options resp =
      ffLastChoice options (pyStripQuotes resp) := by
  cases options with
  | nil => exact absurd rfl hne
  | cons a l =>
      unfold fill_select_field ffLastChoice
      rw [if_neg (by simp), if_neg (by simp [hresp])]
      cases hE : (a :: l).find? (fun o =>
          pyLower o == pyLower (pyStripQuotes resp)) with
      | some o =>
          simp only [bestMatchLoop_exact (pyStripQuotes resp) (a :: l) none o hE,
            hE]
      | none =>
          rw [bestMatchLoop_no_exact (pyStripQuotes resp) (a :: l) none hE]
          simp only [hE]
          cases hL : findLast (fun o =>
              strIn (pyLower (pyStripQuotes resp)) (pyLower o) ||
              strIn (pyLower o) (pyLower (pyStripQuotes resp))) (a :: l) with
          | some o => simp [hL, orElseOpt]
          | none => simp [hL, orElseOpt, defaultOpt]

/-- The default fallback of both resolvers is the first option when the list
is non-empty, and the empty string otherwise. -/
theorem defaultOpt_spec (options : List String) :
    (options ≠ [] → defaultOpt options ∈ options) ∧
    (options = [] → defaultOpt options = "") := by
  cases options <;> simp [defaultOpt]

/-- C9 counterexample: for options `["a", "b"]` and oracle answer `"ab"`,
`_fill_select_field` selects `"b"`, the LAST option related by substring
containment, while the claim dictates the first such option, `"a"`. -/
theorem C9_substring_tiebreak_counterexample :
    fill_select_field ["a", "b"] "ab" = some "b" ∧
    resolverSpecChoice ["a", "b"] "ab" = some "a" ∧
    fill_select_field ["a", "b"] "ab" ≠ some "a" := by
  refine ⟨rfl, rfl, by decide⟩

/-- C9 (amended): for a non-empty option list, `get_selected_option`
returns the exact case-insensitive match when one exists, else the FIRST
substring-containment match, else the first option, while
`_fill_select_field` returns the exact match when one exists, else the LAST
substring-containment match, else the first option; for options
`["Yes", "No"]` and oracle answer `"yes please"` both select `"Yes"`. -/
theorem C9_resolver_choice (options : List String) (sel : String)
    (tokens : Nat) (resp : String) (hne : options ≠ []) (hresp : resp ≠ "") :
    get_selected_option (some (.jobj [("selected_option", .jstr sel)]))
        tokens options =
      .ok ((resolverSpecChoice options sel).getD "", tokens) ∧
    fill_select_field options resp =
      ffLastChoice options (pyStripQuotes resp) ∧
    get_selected_option
        (some (.jobj [("selected_option", .jstr "yes please")])) 7
        ["Yes", "No"] = .ok ("Yes", 7) ∧
    fill_select_field ["Yes", "No"] "yes please" = some "Yes" :=
  ⟨get_selected_option_jstr options sel tokens,
   fill_select_field_eq options resp hne hresp, rfl, rfl⟩

/-- Witness for C9 at options `["Yes", "No"]`, answer `"yes please"`. -/
theorem C9_resolver_choice_witness :
    get_selected_option
        (some (.jobj [("selected_option", .jstr "yes please")])) 7
        ["Yes", "No"] =
      .ok ((resolverSpecChoice ["Yes", "No"] "yes please").getD "", 7) ∧
    fill_select_field ["Yes", "No"] "yes please" =
      ffLastChoice ["Yes", "No"] (pyStripQuotes "yes please") :=
  ⟨(C9_resolver_choice ["Yes", "No"] "yes please" 7 "yes please"
      (by decide) (by decide)).1,
   (C9_resolver_choice ["Yes", "No"] "yes please" 7 "yes please"
      (by decide) (by decide)).2.1⟩

/-- C10 counterexample: a syntactically valid JSON-mode response whose
`selected_option` is the number 1 makes `get_selected_option` raise
(`selected.lower()` on an `int`), so the function is not total over every
parsed response. -/
theorem C10_counterexample :
    get_selected_option (some (.jobj [("selected_option", .jnum 1)])) 7
        ["Yes", "No"] = .error "AttributeError: lower" := rfl

/-- The well-formedness condition under which `get_selected_option` cannot
raise: the parsed JSON (if any) is an object whose `selected_option` entry
(if any) is a string. -/
def respWellFormed : Option JsonVal → Bool
  | none => true
  | some (.jobj kvs) =>
      match kvs.find? (fun kv => kv.1 == "selected_option") with
      | some (_, .jstr _) => true
      | some _ => false
      | none => true
  | some _ => false

/-- C10 (amended): for every options list (including the empty list) and
every oracle response whose parsed JSON, if any, is an object whose
`selected_option` entry, if any, is a string, `get_selected_option` returns
an `(choice, tokensUsed)` pair without raising, where the choice is an
element of the options list whenever it is non-empty and the empty string
when it is empty. -/
theorem C10_get_selected_option_total (jsonData : Option JsonVal)
    (tokens : Nat) (options : List String)
    (h : respWellFormed jsonData = true) :
    ∃ choice,
      get_selected_option jsonData tokens options = .ok (choice, tokens) ∧
      (options ≠ [] → choice ∈ options) ∧
      (options = [] → choice = "") := by
  cases jsonData with
  | none =>
      exact ⟨defaultOpt options, rfl, (defaultOpt_spec options).1,
        fun he => he ▸ rfl⟩
  | some j =>
      cases j with
      | jstr s => simp [respWellFormed] at h
      | jnum n => simp [respWellFormed] at h
      | jbool b => simp [respWellFormed] at h
      | jnull => simp [respWellFormed] at h
      | jarr xs => simp [respWellFormed] at h
      | jobj kvs =>
          by_cases hemp : kvs.isEmpty = true
          · have hT : jsonTruthy (.jobj kvs) = false := by
              simp [jsonTruthy, hemp]
            refine ⟨defaultOpt options, ?_, (defaultOpt_spec options).1,
              fun he => he ▸ rfl⟩
            show (if jsonTruthy (.jobj kvs) then _ else _) = _
            rw [hT]
            simp
          · have hT : jsonTruthy (.jobj kvs) = true := by
              simp [jsonTruthy]
              simpa using hemp
            by_cases hkey : kvs.any (fun kv => kv.1 == "selected_option") = true
            · have hfind : ∃ kv, kvs.find? (fun kv => kv.1 == "selected_option") = some kv := by
                have := List.any_eq_true.mp hkey
                obtain ⟨x, hx, hpx⟩ := this
                cases hf : kvs.find? (fun kv => kv.1 == "selected_option") with
                | some kv => exact ⟨kv, rfl⟩
                | none =>
                    rw [List.find?_eq_none] at hf
                    exact absurd hpx (by simpa using hf x hx)
              obtain ⟨⟨k, v⟩, hf⟩ := hfind
              have hstr : ∃ s, v = .jstr s := by
                have h2 : (match kvs.find? (fun kv => kv.1 == "selected_option") with
                  | some (_, JsonVal.jstr _) => true
                  | some _ => false
                  | none => true) = true := h
                rw [hf] at h2
                cases v <;> simp at h2
                exact ⟨_, rfl⟩
              obtain ⟨s, rfl⟩ := hstr
              have hred : get_selected_option (some (.jobj kvs)) tokens options =
                  (match findExactLoop options (.jstr s) with
                    | Except.error e => Except.error e
                    | Except.ok (some opt) => Except.ok (opt, tokens)
                    | Except.ok none =>
                        match findSubstrLoop options (.jstr s) with
                        | Except.error e => Except.error e
                        | Except.ok (some opt) => Except.ok (opt, tokens)
                        | Except.ok none =>
                            Except.ok (defaultOpt options, tokens)) := by
                show (if jsonTruthy (.jobj kvs) then _ else _) = _
                rw [hT]
                simp only [if_true, jsonContainsSelectedKey, hkey,
                  jsonGetSelected, hf]
              rw [hred, findExactLoop_jstr, findSubstrLoop_jstr]
              cases hE : options.find? (fun o => pyLower o == pyLower s) with
              | some o =>
                  exact ⟨o, by simp,
                    fun _ => List.mem_of_find?_eq_some hE, fun he => by
                      rw [he] at hE; simp at hE⟩
              | none =>
                  cases hS : options.find? (fun o =>
                      strIn (pyLower s) (pyLower o) ||
                      strIn (pyLower o) (pyLower s)) with
                  | some o =>
                      exact ⟨o, by simp,
                        fun _ => List.mem_of_find?_eq_some hS, fun he => by
                          rw [he] at hS; simp at hS⟩
                  | none =>
                      exact ⟨defaultOpt options, by simp,
                        (defaultOpt_spec options).1, fun he => he ▸ rfl⟩
            · refine ⟨defaultOpt options, ?_, (defaultOpt_spec options).1,
                fun he => he ▸ rfl⟩
              show (if jsonTruthy (.jobj kvs) then _ else _) = _
              rw [hT]
              simp only [if_true, jsonContainsSelectedKey]
              rw [Bool.eq_false_iff.mpr hkey]

/-- Witness for C10 at a well-formed response whose answer matches nothing:
the fallback is the first option. -/
theorem C10_get_selected_option_total_witness :
    respWellFormed (some (.jobj [("selected_option", .jstr "maybe")])) =
      true ∧
    (∃ choice,
      get_selected_option (some (.jobj [("selected_option", .jstr "maybe")]))
          4 ["Yes", "No"] = .ok (choice, 4) ∧
      ((["Yes", "No"] : List String) ≠ [] → choice ∈ ["Yes", "No"]) ∧
      ((["Yes", "No"] : List String) = [] → choice = "")) :=
  ⟨by decide, C10_get_selected_option_total _ 4 _ (by decide)⟩

/-! ### Form Field Extractors

`AIFormFiller.detect_form_fields` / `_create_form_field` / `_create_radio_field`
(`form_filler.py` lines 108-353) and `JobParser.parse_form_fields` /
`_find_label` (`job_parser.py` lines 126-322).  A DOM candidate element is
modelled by the observations the extractors make of it; `none` models an
absent attribute or an absent related element (Playwright returns `None`,
or the guarded `inner_text` probe fails). -/

/-- A candidate form element as observed by the extractors. -/
structure ElemM where
  ariaLabel : Option String
  elemId : Option String
  labelForText : Option String
  parentLabelText : Option String
  prevSiblingText : Option String
  placeholder : Option String
  name : Option String
  value : Option String
  requiredAttr : Bool
  ariaRequired : Option String
  optionTexts : List String
  deriving Repr, DecidableEq

/-- A radio group candidate (`fieldset` / `role=radiogroup`): the legend
text, the group `aria-label`, and per radio its `id` and the text of the
`label[for=id]` element. -/
structure RadioGroupM where
  legendText : Option String
  ariaLabel : Option String
  radios : List (Option String × Option String)
  deriving Repr, DecidableEq

/-- `FormField` dataclass of `form_filler.py` (lines 21-34), minus the raw
element handle. -/
structure FFFieldM where
  field_type : String
  label : String
  name : String
  placeholder : String
  current_value : String
  options : List String
  required : Bool
  deriving Repr, DecidableEq

/-- Python `s.replace(oldc, newc)` for single characters. -/
def replaceChar (oldc newc : Char) (s : String) : String :=
  String.mk (s.toList.map (fun c => if c == oldc then newc else c))

/-- Python `str.title()` (ASCII): uppercase an alphabetic character that
follows a non-alphabetic one, lowercase the rest. -/
def pyTitleGo : Bool → List Char → List Char
  | _, [] => []
  | prevCased, c :: rest =>
      if c.isAlpha then
        (if prevCased then c.toLower else c.toUpper) :: pyTitleGo true rest
      else
        c :: pyTitleGo false rest

/-- Python `str.title()`. -/
def pyTitle (s : String) : String := String.mk (pyTitleGo false s.toList)

/-- Method 6 of `_create_form_field` (`form_filler.py` line 280):
`name.replace(UNDERSCORE, SPACE).replace(DASH, SPACE).title()`. -/
def humanizeName (n : String) : String :=
  pyTitle (replaceChar '-' ' ' (replaceChar '_' ' ' n))

/-- Method 2 of `_create_form_field` (`form_filler.py` lines 238-243): the
`label[for=id]` text, attempted only for a truthy id. -/
def ffLabelForStrategy (e : ElemM) : String :=
  match e.elemId with
  | some i => if i ≠ "" then e.labelForText.getD "" else ""
  | none => ""

/-- The ordered label fallback chain of `_create_form_field`
(`form_filler.py` lines 229-280): aria-label, `label[for=id]`, enclosing
label, preceding label/span sibling, placeholder, humanized field name; each
step only runs while the label is still falsy (empty). -/
def ffLabelChain (e : ElemM) : String :=
  let name := e.name.getD ""
  let placeholder := e.placeholder.getD ""
  let label1 := e.ariaLabel.getD ""
  let label2 := if label1 = "" then ffLabelForStrategy e else label1
  let label3 := if label2 = "" then e.parentLabelText.getD "" else label2
  let label4 := if label3 = "" then e.prevSiblingText.getD "" else label3
  let label5 := if label4 = "" then placeholder else label4
  if label5 = "" ∧ name ≠ "" then humanizeName name else label5

/-- The six strategy results in their attempted order; the chain's outcome
is the first non-empty entry. -/
def ffStrategies (e : ElemM) : List String :=
  [e.ariaLabel.getD "",
   ffLabelForStrategy e,
   e.parentLabelText.getD "",
   e.prevSiblingText.getD "",
   e.placeholder.getD "",
   (if e.name.getD "" ≠ "" then humanizeName (e.name.getD "") else "")]

/-- `AIFormFiller._create_form_field` (`form_filler.py` lines 205-301). -/
def ffCreateFormField (e : ElemM) (ftype : String) : FFFieldM :=
  let name := e.name.getD ""
  let placeholder := e.placeholder.getD ""
  let required := e.requiredAttr || (e.ariaRequired == some "true")
  let label := ffLabelChain e
  let current_value :=
    if ftype = "text" then e.value.getD ""
    else if ftype = "textarea" then e.value.getD "" else ""
  { field_type := ftype, label := pyStrip label, name := name,
    placeholder := placeholder, current_value := current_value,
    options := [], required := required }

/-- Text-input arm of `detect_form_fields` (`form_filler.py` lines
131-142): skip value-bearing inputs, keep only fields with a label. -/
def ffTextField (e : ElemM) : Option FFFieldM :=
  let value := e.value.getD ""
  if pyStrip value ≠ "" then none
  else
    let f := ffCreateFormField e "text"
    if f.label ≠ "" then some f else none

/-- Textarea arm of `detect_form_fields` (`form_filler.py` lines 145-156). -/
def ffTextareaField (e : ElemM) : Option FFFieldM :=
  let value := e.value.getD ""
  if value ≠ "" ∧ pyStrip value ≠ "" then none
  else
    let f := ffCreateFormField e "textarea"
    if f.label ≠ "" then some f else none

/-- Option collection for a native select (`form_filler.py` lines 164-171):
keep stripped non-empty texts other than the placeholder entry. -/
def ffSelectOptions (texts : List String) : List String :=
  texts.filterMap fun t =>
    if t ≠ "" ∧ pyStrip t ≠ "" ∧ pyStrip t ≠ "Selecione uma opção" then
      some (pyStrip t)
    else none

/-- Select arm of `detect_form_fields` (`form_filler.py` lines 159-174). -/
def ffSelectField (e : ElemM) : Option FFFieldM :=
  let f := ffCreateFormField e "select"
  if f.label ≠ "" then
    some { f with options := ffSelectOptions e.optionTexts }
  else none

/-- Custom-dropdown arm of `detect_form_fields` (`form_filler.py` lines
177-188). -/
def ffDropdownField (e : ElemM) : Option FFFieldM :=
  let f := ffCreateFormField e "dropdown"
  if f.label ≠ "" then some f else none

/-- Option collection of `_create_radio_field` (`form_filler.py` lines
326-336): a radio contributes its `label[for=id]` text when the id and the
text are truthy. -/
def radioOptions (radios : List (Option String × Option String)) :
    List String :=
  radios.filterMap fun rd =>
    match rd.1 with
    | some i =>
        if i ≠ "" then
          match rd.2 with
          | some t => if t ≠ "" then some (pyStrip t) else none
          | none => none
        else none
    | none => none

/-- The legend-then-aria-label chain of `_create_radio_field`
(`form_filler.py` lines 314-323). -/
def ffRadioLabel (g : RadioGroupM) : String :=
  let label := g.legendText.getD ""
  if label = "" then g.ariaLabel.getD "" else label

/-- `AIFormFiller._create_radio_field` (`form_filler.py` lines 303-353):
`None` when no option was collected. -/
def ffCreateRadioField (g : RadioGroupM) : Option FFFieldM :=
  let options := radioOptions g.radios
  if options.isEmpty then none
  else
    some { field_type := "radio", label := pyStrip (ffRadioLabel g),
           name := "", placeholder := "", current_value := "",
           options := options, required := false }

/-- Radio arm of `detect_form_fields` (`form_filler.py` lines 191-198). -/
def ffRadioField (g : RadioGroupM) : Option FFFieldM :=
  match ffCreateRadioField g with
  | some f => if f.label ≠ "" then some f else none
  | none => none

/-- The candidate elements of one page/modal, per category scanned by
`detect_form_fields`. -/
structure FFPageM where
  textInputs : List ElemM
  textareas : List ElemM
  selects : List ElemM
  dropdowns : List ElemM
  radioGroups : List RadioGroupM

/-- `AIFormFiller.detect_form_fields` (`form_filler.py` lines 108-203). -/
def detect_form_fields (p : FFPageM) : List FFFieldM :=
  p.textInputs.filterMap ffTextField ++
  p.textareas.filterMap ffTextareaField ++
  p.selects.filterMap ffSelectField ++
  p.dropdowns.filterMap ffDropdownField ++
  p.radioGroups.filterMap ffRadioField

/-- The `label[for=id]` step of `JobParser._find_label` (`job_parser.py`
lines 298-302): only attempted for a truthy id, yielding the label element's
text when the element exists. -/
def jpLabelForStep (e : ElemM) : Option String :=
  match e.elemId with
  | some i => if i ≠ "" then e.labelForText else none
  | none => none

/-- `JobParser._find_label` (`job_parser.py` lines 295-322): `label[for]`,
enclosing label, aria-label, placeholder, then the FIXED fallback
`"Unknown field"` — the element is never discarded for lacking a label. -/
def jpFindLabel (e : ElemM) : String :=
  match jpLabelForStep e with
  | some t => pyStrip t
  | none =>
      match e.parentLabelText with
      | some t => pyStrip t
      | none =>
          if e.ariaLabel.getD "" ≠ "" then e.ariaLabel.getD ""
          else if e.placeholder.getD "" ≠ "" then e.placeholder.getD ""
          else "Unknown field"

/-- `FormField` dataclass of `job_parser.py` (lines 17-26). -/
structure JPFieldM where
  field_type : String
  label : String
  name : String
  options : List String
  required : Bool
  current_value : String
  deriving Repr, DecidableEq

/-- `JobParser._parse_text_input` (`job_parser.py` lines 178-197). -/
def jpParseTextInput (e : ElemM) : Option JPFieldM :=
  some { field_type := "text", label := jpFindLabel e,
         name := e.name.getD "", options := [], required := e.requiredAttr,
         current_value := e.value.getD "" }

/-- `JobParser._parse_textarea` (`job_parser.py` lines 199-217). -/
def jpParseTextarea (e : ElemM) : Option JPFieldM :=
  some { field_type := "textarea", label := jpFindLabel e,
         name := e.name.getD "", options := [], required := e.requiredAttr,
         current_value := e.value.getD "" }

/-- `JobParser._parse_select` (`job_parser.py` lines 219-244); options keep
the stripped non-empty texts. -/
def jpParseSelect (e : ElemM) : Option JPFieldM :=
  some { field_type := "select", label := jpFindLabel e,
         name := e.name.getD "",
         options := e.optionTexts.filterMap (fun t =>
           if pyStrip t ≠ "" then some (pyStrip t) else none),
         required := e.requiredAttr, current_value := "" }

/-- The candidate elements of one Easy Apply form page as scanned by
`JobParser.parse_form_fields` (radio groups and file inputs are not
label-chain candidates and are omitted). -/
structure JPPageM where
  textInputs : List ElemM
  textareas : List ElemM
  selects : List ElemM

/-- `JobParser.parse_form_fields` (`job_parser.py` lines 126-176) over the
text, textarea and select candidates. -/
def parse_form_fields (p : JPPageM) : List JPFieldM :=
  p.textInputs.filterMap jpParseTextInput ++
  p.textareas.filterMap jpParseTextarea ++
  p.selects.filterMap jpParseSelect

/-- A candidate element carrying no label information at all: every label
strategy of either extractor fails on it. -/
def eBare : ElemM :=
  { ariaLabel := none, elemId := none, labelForText := none,
    parentLabelText := none, prevSiblingText := none, placeholder := none,
    name := none, value := none, requiredAttr := false, ariaRequired := none,
    optionTexts := [] }

/-- A form page whose only candidate is the unlabeled element, as seen by
`JobParser.parse_form_fields`. -/
def jpPageBare : JPPageM :=
  { textInputs := [eBare], textareas := [], selects := [] }

/-- The same page as seen by `AIFormFiller.detect_form_fields`. -/
def ffPageBare : FFPageM :=
  { textInputs := [eBare], textareas := [], selects := [], dropdowns := [],
    radioGroups := [] }

/-- The field `JobParser` produces for the unlabeled element. -/
def jpBareField : JPFieldM :=
  { field_type := "text", label := "Unknown field", name := "",
    options := [], required := false, current_value := "" }

/-- The first non-empty string of a list (empty when none is). -/
def firstNonEmpty : List String → String
  | [] => ""
  | s :: rest => if s = "" then firstNonEmpty rest else s

/-- The label of every created form-filler field is the stripped result of
the fallback chain. -/
theorem ffCreateFormField_label (e : ElemM) (t : String) :
    (ffCreateFormField e t).label = pyStrip (ffLabelChain e) := rfl

/-- A text field survives detection only with the chain label, non-empty. -/
theorem ffTextField_some (e : ElemM) (f : FFFieldM)
    (h : ffTextField e = some f) :
    f.label = pyStrip (ffLabelChain e) ∧ f.label ≠ "" := by
  simp only [ffTextField] at h
  by_cases h1 : pyStrip (e.value.getD "") ≠ ""
  · rw [if_pos h1] at h
    exact absurd h (by simp)
  · rw [if_neg h1] at h
    by_cases h2 : (ffCreateFormField e "text").label ≠ ""
    · rw [if_pos h2] at h
      injection h with h3
      subst h3
      exact ⟨rfl, h2⟩
    · rw [if_neg h2] at h
      exact absurd h (by simp)

/-- A textarea field survives detection only with the chain label,
non-empty. -/
theorem ffTextareaField_some (e : ElemM) (f : FFFieldM)
    (h : ffTextareaField e = some f) :
    f.label = pyStrip (ffLabelChain e) ∧ f.label ≠ "" := by
  simp only [ffTextareaField] at h
  by_cases h1 : (e.value.getD "" ≠ "" ∧ pyStrip (e.value.getD "") ≠ "")
  · rw [if_pos h1] at h
    exact absurd h (by simp)
  · rw [if_neg h1] at h
    by_cases h2 : (ffCreateFormField e "textarea").label ≠ ""
    · rw [if_pos h2] at h
      injection h with h3
      subst h3
      exact ⟨rfl, h2⟩
    · rw [if_neg h2] at h
      exact absurd h (by simp)

/-- A select field survives detection only with the chain label,
non-empty. -/
theorem ffSelectField_some (e : ElemM) (f : FFFieldM)
    (h : ffSelectField e = some f) :
    f.label = pyStrip (ffLabelChain e) ∧ f.label ≠ "" := by
  simp only [ffSelectField] at h
  by_cases h2 : (ffCreateFormField e "select").label ≠ ""
  · rw [if_pos h2] at h
    injection h with h3
    subst h3
    exact ⟨rfl, h2⟩
  · rw [if_neg h2] at h
    exact absurd h (by simp)

/-- A dropdown field survives detection only with the chain label,
non-empty. -/
theorem ffDropdownField_some (e : ElemM) (f : FFFieldM)
    (h : ffDropdownField e = some f) :
    f.label = pyStrip (ffLabelChain e) ∧ f.label ≠ "" := by
  simp only [ffDropdownField] at h
  by_cases h2 : (ffCreateFormField e "dropdown").label ≠ ""
  · rw [if_pos h2] at h
    injection h with h3
    subst h3
    exact ⟨rfl, h2⟩
  · rw [if_neg h2] at h
    exact absurd h (by simp)

/-- A radio field survives detection only with the stripped legend/aria
label, non-empty. -/
theorem ffRadioField_some (g : RadioGroupM) (f : FFFieldM)
    (h : ffRadioField g = some f) :
    f.label = pyStrip (ffRadioLabel g) ∧ f.label ≠ "" := by
  simp only [ffRadioField, ffCreateRadioField] at h
  by_cases h0 : (radioOptions g.radios).isEmpty = true
  · rw [if_pos h0] at h
    exact absurd h (by simp)
  · rw [if_neg h0] at h
    replace h : (if pyStrip (ffRadioLabel g) ≠ "" then
        some { field_type := "radio", label := pyStrip (ffRadioLabel g),
               name := "", placeholder := "", current_value := "",
               options := radioOptions g.radios, required := false }
      else none) = some f := h
    by_cases h2 : pyStrip (ffRadioLabel g) ≠ ""
    · rw [if_pos h2] at h
      injection h with h3
      subst h3
      exact ⟨rfl, h2⟩
    · rw [if_neg h2] at h
      exact absurd h (by simp)

/-- The fallback chain is the first non-empty strategy result, in order. -/
theorem ffLabelChain_eq_firstNonEmpty (e : ElemM) :
    ffLabelChain e = firstNonEmpty (ffStrategies e) := by
  unfold ffLabelChain ffStrategies
  by_cases h1 : e.ariaLabel.getD "" = ""
  case neg => simp [firstNonEmpty, h1]
  case pos =>
  by_cases h2 : ffLabelForStrategy e = ""
  case neg => simp [firstNonEmpty, h1, h2]
  case pos =>
  by_cases h3 : e.parentLabelText.getD "" = ""
  case neg => simp [firstNonEmpty, h1, h2, h3]
  case pos =>
  by_cases h4 : e.prevSiblingText.getD "" = ""
  case neg => simp [firstNonEmpty, h1, h2, h3, h4]
  case pos =>
  by_cases h5 : e.placeholder.getD "" = ""
  case neg => simp [firstNonEmpty, h1, h2, h3, h4, h5]
  case pos =>
  by_cases h6 : e.name.getD "" = ""
  case pos => simp [firstNonEmpty, h1, h2, h3, h4, h5, h6]
  case neg =>
  by_cases h7 : humanizeName (e.name.getD "") = ""
  · simp [firstNonEmpty, h1, h2, h3, h4, h5, h6, h7]
  · simp [firstNonEmpty, h1, h2, h3, h4, h5, h6, h7]

/-- A candidate whose stripped chain label is empty is discarded by every
arm of `detect_form_fields`. -/
theorem ff_discard_unlabeled (e : ElemM)
    (h : pyStrip (ffLabelChain e) = "") :
    ffTextField e = none ∧ ffTextareaField e = none ∧
    ffSelectField e = none ∧ ffDropdownField e = none := by
  have hl : ∀ t, (ffCreateFormField e t).label = "" := fun t => by
    rw [ffCreateFormField_label, h]
  refine ⟨?_, ?_, ?_, ?_⟩ <;>
    simp [ffTextField, ffTextareaField, ffSelectField, ffDropdownField, hl]

/-- A radio group whose stripped legend/aria label is empty is discarded. -/
theorem ff_discard_unlabeled_radio (g : RadioGroupM)
    (h : pyStrip (ffRadioLabel g) = "") : ffRadioField g = none := by
  simp only [ffRadioField, ffCreateRadioField]
  by_cases h0 : (radioOptions g.radios).isEmpty = true
  · rw [if_pos h0]
  · rw [if_neg h0]
    simp [h]

/-- C6 counterexample: on a candidate text input for which every label
strategy fails, `JobParser._find_label` yields the fixed fallback
`"Unknown field"` and `parse_form_fields` KEEPS the field in its output,
while `detect_form_fields` discards the same candidate — so extraction does
not discard every label-less candidate, and the kept field\'s label is not
the result of any fallback strategy. -/
theorem C6_unlabeled_kept_counterexample :
    jpFindLabel eBare = "Unknown field" ∧
    parse_form_fields jpPageBare = [jpBareField] ∧
    ffLabelChain eBare = "" ∧
    detect_form_fields ffPageBare = [] :=
  ⟨rfl, rfl, rfl, rfl⟩

/-- C6 (amended): every field returned by `AIFormFiller.detect_form_fields`
carries a non-empty label equal to the stripped first non-empty result of
the ordered fallback strategies (legend/aria for radio groups), and a
candidate on which every strategy fails is discarded; `JobParser`\'s
extractor instead labels such a candidate with the fixed string
`"Unknown field"` and keeps it. -/
theorem C6_label_fallback (p : FFPageM) :
    (∀ f ∈ detect_form_fields p, f.label ≠ "") ∧
    (∀ e : ElemM, ffLabelChain e = firstNonEmpty (ffStrategies e)) ∧
    (∀ e f, ffTextField e = some f → f.label = pyStrip (ffLabelChain e)) ∧
    (∀ e f, ffTextareaField e = some f → f.label = pyStrip (ffLabelChain e)) ∧
    (∀ e f, ffSelectField e = some f → f.label = pyStrip (ffLabelChain e)) ∧
    (∀ e f, ffDropdownField e = some f → f.label = pyStrip (ffLabelChain e)) ∧
    (∀ g f, ffRadioField g = some f → f.label = pyStrip (ffRadioLabel g)) ∧
    (∀ e : ElemM, pyStrip (ffLabelChain e) = "" →
      ffTextField e = none ∧ ffTextareaField e = none ∧
      ffSelectField e = none ∧ ffDropdownField e = none) ∧
    (∀ g : RadioGroupM, pyStrip (ffRadioLabel g) = "" →
      ffRadioField g = none) ∧
    (∀ e : ElemM, jpLabelForStep e = none → e.parentLabelText = none →
      e.ariaLabel.getD "" = "" → e.placeholder.getD "" = "" →
      jpFindLabel e = "Unknown field") := by
  refine ⟨?_, ffLabelChain_eq_firstNonEmpty,
    fun e f h => (ffTextField_some e f h).1,
    fun e f h => (ffTextareaField_some e f h).1,
    fun e f h => (ffSelectField_some e f h).1,
    fun e f h => (ffDropdownField_some e f h).1,
    fun g f h => (ffRadioField_some g f h).1,
    ff_discard_unlabeled, ff_discard_unlabeled_radio, ?_⟩
  · intro f hf
    simp only [detect_form_fields, List.mem_append, List.mem_filterMap] at hf
    rcases hf with ((((⟨e, _, he⟩ | ⟨e, _, he⟩) | ⟨e, _, he⟩) | ⟨e, _, he⟩) |
        ⟨g, _, hg⟩)
    · exact (ffTextField_some e f he).2
    · exact (ffTextareaField_some e f he).2
    · exact (ffSelectField_some e f he).2
    · exact (ffDropdownField_some e f he).2
    · exact (ffRadioField_some g f hg).2
  · intro e h1 h2 h3 h4
    unfold jpFindLabel
    rw [h1, h2]
    simp [h3, h4]

/-- Witness for C6: the unlabeled candidate is discarded by the text and
select arms of `detect_form_fields`. -/
theorem C6_label_fallback_witness :
    ffTextField eBare = none ∧ ffSelectField eBare = none :=
  ⟨((C6_label_fallback ffPageBare).2.2.2.2.2.2.2.1 eBare rfl).1,
   ((C6_label_fallback ffPageBare).2.2.2.2.2.2.2.1 eBare rfl).2.2.1⟩

/-! ### Application Flow Controller

`ApplyToJobUseCase.execute` (`apply_to_job.py` lines 87-205).  Collaborator
behaviour is scripted by an environment: the browser clicks
(`_click_easy_apply` / `_click_submit` / `_click_review` / `_click_next`
swallow their own exceptions and return booleans), the extractor
(`parse_form_fields`, non-raising), and the AI calls and the file upload,
which can raise.  Ghost fields (`raised`, `aiTrace`, `extractorCalls`)
instrument the run without affecting the mirrored control flow. -/

/-- The `Job` entity fields relevant to the flow (`domain/entities/job.py`). -/
structure JobM where
  job_id : String
  title : String
  company : String
  deriving Repr, DecidableEq

/-- `ApplicationResult` enum (`apply_to_job.py` lines 26-31). -/
inductive ApplicationResultM where
  | success
  | skipped
  | failed
  | already_applied
  deriving Repr, DecidableEq

/-- `ApplyResult` dataclass (`apply_to_job.py` lines 34-40). -/
structure ApplyResultM where
  result : ApplicationResultM
  job : Option JobM
  message : String
  tokens_used : Nat
  deriving Repr, DecidableEq

/-- One parsed form field together with the scripted outcome of the
collaborator call its `field_type` dispatches to: the AI answer
`(content-or-choice, tokens)` or an exception, and the file-upload outcome
(`some msg` models a raised exception). -/
structure FieldScriptM where
  field_type : String
  uploadOutcome : Option String
  aiOutcome : Except String (String × Nat)

/-- The scripted collaborators for one `execute()` run.  `storageApplied`
records what `SQLiteAdapter.job_already_applied(job_id)` would answer; it is
part of the environment so that theorems can ask whether `execute` consults
it. -/
structure ExecEnvM where
  jobUrl : Option String
  navigateOutcome : Option String
  parsedJob : Option JobM
  easyApply : Bool
  pages : Nat → List FieldScriptM
  submit1 : Nat → Bool
  review : Nat → Bool
  submit2 : Nat → Bool
  next : Nat → Bool
  resumePath : Bool
  storageApplied : Bool

/-- `ApplyToJobUseCase.MAX_FORM_PAGES` (`apply_to_job.py` line 65). -/
def MAX_FORM_PAGES : Nat := 10

/-- The per-field body of the inner loop (`apply_to_job.py` lines 131-159):
file fields upload the resume (when configured), select/radio and
text/textarea fields call the AI and add its tokens to the running total.
Returns (raised exception if any, new total, tokens of completed AI calls). -/
def processField (resumePath : Bool) (fs : FieldScriptM) (total : Nat) :
    Option String × Nat × List Nat :=
  if fs.field_type = "file" then
    if resumePath then
      match fs.uploadOutcome with
      | some e => (some e, total, [])
      | none => (none, total, [])
    else (none, total, [])
  else if fs.field_type = "select" ∨ fs.field_type = "radio" then
    match fs.aiOutcome with
    | .error e => (some e, total, [])
    | .ok (_, tk) => (none, total + tk, [tk])
  else if fs.field_type = "text" ∨ fs.field_type = "textarea" then
    match fs.aiOutcome with
    | .error e => (some e, total, [])
    | .ok (_, tk) => (none, total + tk, [tk])
  else (none, total, [])

/-- The inner `for field in fields` loop (`apply_to_job.py` lines 131-159):
stops at the first raised exception, carrying the total accumulated so far. -/
def processFields (resumePath : Bool) :
    List FieldScriptM → Nat → Option String × Nat × List Nat
  | [], total => (none, total, [])
  | fs :: rest, total =>
      match processField resumePath fs total with
      | (some e, t2, tr) => (some e, t2, tr)
      | (none, t2, tr) =>
          let out := processFields resumePath rest t2
          (out.1, out.2.1, tr ++ out.2.2)

/-- Outcome of a run: the returned `ApplyResult` plus instrumentation (the
exception caught at the job boundary, the tokens of each completed AI call,
and the number of `parse_form_fields` invocations). -/
structure ExecOutM where
  res : ApplyResultM
  raised : Option String
  aiTrace : List Nat
  extractorCalls : Nat
  deriving Repr, DecidableEq

/-- The `for page_num in range(MAX_FORM_PAGES)` loop (`apply_to_job.py`
lines 124-197) plus the post-loop `Failed` return (lines 192-197) and the
exception handler (lines 199-205): each iteration extracts the fields,
processes them (an AI exception aborts the run into the handler), then
tries Submit, Review-then-Submit, Next, and otherwise breaks out to the
`Failed` return; fuel exhaustion reaches the same return. -/
def formLoop (env : ExecEnvM) (job : JobM) :
    Nat → Nat → Nat → List Nat → Nat → ExecOutM
  | 0, _, total, trace, calls =>
      ⟨⟨.failed, some job, "Fluxo de formulário não completado", total⟩,
        none, trace, calls⟩
  | fuel + 1, pageIdx, total, trace, calls =>
      match processFields env.resumePath (env.pages pageIdx) total with
      | (some e, t2, tr) =>
          ⟨⟨.failed, none, e, t2⟩, some e, trace ++ tr, calls + 1⟩
      | (none, t2, tr) =>
          if env.submit1 pageIdx then
            ⟨⟨.success, some job, "Candidatura enviada com sucesso", t2⟩,
              none, trace ++ tr, calls + 1⟩
          else if env.review pageIdx then
            if env.submit2 pageIdx then
              ⟨⟨.success, some job, "Candidatura enviada com sucesso", t2⟩,
                none, trace ++ tr, calls + 1⟩
            else formLoop env job fuel (pageIdx + 1) t2 (trace ++ tr) (calls + 1)
          else if env.next pageIdx then
            formLoop env job fuel (pageIdx + 1) t2 (trace ++ tr) (calls + 1)
          else
            ⟨⟨.failed, some job, "Fluxo de formulário não completado", t2⟩,
              none, trace ++ tr, calls + 1⟩

/-- The exception `browser.navigate` raises, when a job URL is given
(`apply_to_job.py` lines 101-103). -/
def navRaise (env : ExecEnvM) : Option String :=
  match env.jobUrl with
  | some _ => env.navigateOutcome
  | none => none

/-- `ApplyToJobUseCase.execute` (`apply_to_job.py` lines 87-205). -/
def execute (env : ExecEnvM) : ExecOutM :=
  match navRaise env with
  | some e => ⟨⟨.failed, none, e, 0⟩, some e, [], 0⟩
  | none =>
      match env.parsedJob with
      | none =>
          ⟨⟨.failed, none, "Não foi possível parsear a vaga", 0⟩,
            none, [], 0⟩
      | some job =>
          if ¬ env.easyApply then
            ⟨⟨.skipped, some job, "Botão Easy Apply não encontrado", 0⟩,
              none, [], 0⟩
          else formLoop env job MAX_FORM_PAGES 0 0 [] 0

/-- What a field contributes is independent of the running total: whether
it raises and which tokens it records do not depend on `total`. -/
theorem processField_indep (rp : Bool) (fs : FieldScriptM) (t : Nat) :
    (processField rp fs t).1 = (processField rp fs 0).1 ∧
    (processField rp fs t).2.2 = (processField rp fs 0).2.2 := by
  unfold processField
  split_ifs <;>
    first
      | exact ⟨rfl, rfl⟩
      | (cases fs.uploadOutcome <;> exact ⟨rfl, rfl⟩)
      | (rcases fs.aiOutcome with e | ⟨c, tk⟩ <;> exact ⟨rfl, rfl⟩)

/-- The total after a field is the incoming total plus the recorded
tokens. -/
theorem processField_sum (rp : Bool) (fs : FieldScriptM) (total : Nat) :
    (processField rp fs total).2.1 = total + (processField rp fs total).2.2.sum := by
  unfold processField
  split_ifs <;>
    first
      | simp
      | (cases fs.uploadOutcome <;> simp)
      | (rcases fs.aiOutcome with e | ⟨c, tk⟩ <;> simp)

/-- The running total tracked by the inner field loop is the incoming total
plus the sum of the recorded AI tokens, raised exception or not. -/
theorem processFields_sum (rp : Bool) (l : List FieldScriptM) (total : Nat) :
    (processFields rp l total).2.1 = total + (processFields rp l total).2.2.sum := by
  induction l generalizing total with
  | nil => simp [processFields]
  | cons fs rest ih =>
      simp only [processFields]
      rcases hA : processField rp fs total with ⟨rA, tA, trA⟩
      have hs := processField_sum rp fs total
      rw [hA] at hs
      cases rA with
      | some e => simpa using hs
      | none =>
          simp only []
          rw [ih tA, List.sum_append]
          simp at hs
          omega

/-- Whether the field loop raises, and the tokens it records, do not depend
on the incoming total. -/
theorem processFields_indep (rp : Bool) (l : List FieldScriptM) (t : Nat) :
    (processFields rp l t).1 = (processFields rp l 0).1 ∧
    (processFields rp l t).2.2 = (processFields rp l 0).2.2 := by
  induction l generalizing t with
  | nil => exact ⟨rfl, rfl⟩
  | cons fs rest ih =>
      simp only [processFields]
      obtain ⟨h1, h2⟩ := processField_indep rp fs t
      rcases hA : processField rp fs t with ⟨rA, tA, trA⟩
      rcases hB : processField rp fs 0 with ⟨rB, tB, trB⟩
      rw [hA, hB] at h1 h2
      simp only at h1 h2
      subst h1
      subst h2
      cases rA with
      | some e => exact ⟨rfl, rfl⟩
      | none =>
          refine ⟨((ih tA).1).trans ((ih tB).1).symm, ?_⟩
          show trA ++ (processFields rp rest tA).2.2 =
            trA ++ (processFields rp rest tB).2.2
          rw [(ih tA).2, (ih tB).2]

/-- The loop enters at most `fuel` iterations, hence calls the extractor at
most `fuel` more times. -/
theorem formLoop_calls_le (env : ExecEnvM) (job : JobM) :
    ∀ fuel pageIdx total trace calls,
    (formLoop env job fuel pageIdx total trace calls).extractorCalls ≤
      calls + fuel := by
  intro fuel
  induction fuel with
  | zero => intro pageIdx total trace calls; exact Nat.le_refl _
  | succ fuel ih =>
      intro pageIdx total trace calls
      simp only [formLoop]
      split
      · show calls + 1 ≤ calls + (fuel + 1)
        omega
      · split_ifs with h1 h2 h3 h4
        · show calls + 1 ≤ calls + (fuel + 1)
          omega
        · show calls + 1 ≤ calls + (fuel + 1)
          omega
        · exact le_trans (ih _ _ _ _) (by omega)
        · exact le_trans (ih _ _ _ _) (by omega)
        · show calls + 1 ≤ calls + (fuel + 1)
          omega

/-- Along the whole loop the reported token total is the sum of the
completed AI calls\' tokens, and a caught exception always yields a
`Failed` result carrying the exception\'s message with no job attached. -/
theorem formLoop_spec (env : ExecEnvM) (job : JobM) :
    ∀ fuel pageIdx total trace calls, total = trace.sum →
    ((formLoop env job fuel pageIdx total trace calls).res.tokens_used =
      (formLoop env job fuel pageIdx total trace calls).aiTrace.sum) ∧
    (∀ e, (formLoop env job fuel pageIdx total trace calls).raised = some e →
      (formLoop env job fuel pageIdx total trace calls).res.result = .failed ∧
      (formLoop env job fuel pageIdx total trace calls).res.message = e ∧
      (formLoop env job fuel pageIdx total trace calls).res.job = none) := by
  intro fuel
  induction fuel with
  | zero =>
      intro pageIdx total trace calls htot
      exact ⟨htot, fun e he => by cases he⟩
  | succ fuel ih =>
      intro pageIdx total trace calls htot
      simp only [formLoop]
      rcases hA : processFields env.resumePath (env.pages pageIdx) total with
        ⟨rA, tA, trA⟩
      have hs := processFields_sum env.resumePath (env.pages pageIdx) total
      rw [hA] at hs
      simp only at hs
      have htot2 : tA = (trace ++ trA).sum := by
        rw [List.sum_append, ← htot]
        exact hs
      cases rA with
      | some e =>
          exact ⟨htot2, fun e' he' => by cases he'; exact ⟨rfl, rfl, rfl⟩⟩
      | none =>
          split_ifs with h1 h2 h3 h4
          · exact ⟨htot2, fun e' he' => by cases he'⟩
          · exact ⟨htot2, fun e' he' => by cases he'⟩
          · exact ih _ _ _ _ htot2
          · exact ih _ _ _ _ htot2
          · exact ⟨htot2, fun e' he' => by cases he'⟩

/-- A page on which the loop keeps iterating: the fields raise nothing, no
Submit, and either Review without a reachable Submit or a Next control. -/
def pageIterates (env : ExecEnvM) (i : Nat) : Prop :=
  (processFields env.resumePath (env.pages i) 0).1 = none ∧
  env.submit1 i = false ∧
  ((env.review i = true ∧ env.submit2 i = false) ∨
   (env.review i = false ∧ env.next i = true))

/-- When every remaining page iterates, the loop burns all its fuel and
exits with the `Failed`, form-flow-not-completed outcome. -/
theorem formLoop_all_iterate (env : ExecEnvM) (job : JobM) :
    ∀ fuel pageIdx total trace calls,
    (∀ i, pageIdx ≤ i → i < pageIdx + fuel → pageIterates env i) →
    (formLoop env job fuel pageIdx total trace calls).res.result = .failed ∧
    (formLoop env job fuel pageIdx total trace calls).res.message =
      "Fluxo de formulário não completado" ∧
    (formLoop env job fuel pageIdx total trace calls).extractorCalls =
      calls + fuel := by
  intro fuel
  induction fuel with
  | zero => intro pageIdx total trace calls _; exact ⟨rfl, rfl, rfl⟩
  | succ fuel ih =>
      intro pageIdx total trace calls hiter
      obtain ⟨hraise, h1, hrest⟩ := hiter pageIdx (Nat.le_refl _) (by omega)
      have hraiseT : (processFields env.resumePath (env.pages pageIdx) total).1 =
          none := by
        rw [(processFields_indep env.resumePath (env.pages pageIdx) total).1]
        exact hraise
      simp only [formLoop]
      split
      · next e t2 tr heq =>
          rw [heq] at hraiseT
          simp at hraiseT
      · next t2 tr heq =>
          rw [if_neg (by simp [h1])]
          rcases hrest with ⟨hrev, hsub2⟩ | ⟨hrev, hnext⟩
          · rw [if_pos hrev, if_neg (by simp [hsub2])]
            have htail := ih (pageIdx + 1) t2 (trace ++ tr) (calls + 1)
              (fun i hi1 hi2 => hiter i (by omega) (by omega))
            exact ⟨htail.1, htail.2.1, by rw [htail.2.2]; omega⟩
          · rw [if_neg (by simp [hrev]), if_pos hnext]
            have htail := ih (pageIdx + 1) t2 (trace ++ tr) (calls + 1)
              (fun i hi1 hi2 => hiter i (by omega) (by omega))
            exact ⟨htail.1, htail.2.1, by rw [htail.2.2]; omega⟩

/-- When the pages up to `k` iterate and page `k` exposes no Submit, Review
or Next control, the loop breaks out at page `k` with the `Failed`,
form-flow-not-completed outcome. -/
theorem formLoop_no_control (env : ExecEnvM) (job : JobM) :
    ∀ fuel pageIdx k total trace calls,
    pageIdx ≤ k → k < pageIdx + fuel →
    (∀ i, pageIdx ≤ i → i < k → pageIterates env i) →
    (processFields env.resumePath (env.pages k) 0).1 = none →
    env.submit1 k = false → env.review k = false → env.next k = false →
    (formLoop env job fuel pageIdx total trace calls).res.result = .failed ∧
    (formLoop env job fuel pageIdx total trace calls).res.message =
      "Fluxo de formulário não completado" := by
  intro fuel
  induction fuel with
  | zero => intro pageIdx k total trace calls hk1 hk2 _ _ _ _ _; omega
  | succ fuel ih =>
      intro pageIdx k total trace calls hk1 hk2 hiter hkraise hks hkr hkn
      by_cases hpk : pageIdx = k
      · subst hpk
        have hraiseT :
            (processFields env.resumePath (env.pages pageIdx) total).1 =
              none := by
          rw [(processFields_indep env.resumePath (env.pages pageIdx) total).1]
          exact hkraise
        simp only [formLoop]
        split
        · next e t2 tr heq =>
            rw [heq] at hraiseT
            simp at hraiseT
        · next t2 tr heq =>
            rw [if_neg (by simp [hks]), if_neg (by simp [hkr]),
              if_neg (by simp [hkn])]
            exact ⟨rfl, rfl⟩
      · have hlt : pageIdx < k := by omega
        obtain ⟨hraise, h1, hrest⟩ := hiter pageIdx (Nat.le_refl _) hlt
        have hraiseT :
            (processFields env.resumePath (env.pages pageIdx) total).1 =
              none := by
          rw [(processFields_indep env.resumePath (env.pages pageIdx) total).1]
          exact hraise
        simp only [formLoop]
        split
        · next e t2 tr heq =>
            rw [heq] at hraiseT
            simp at hraiseT
        · next t2 tr heq =>
            rw [if_neg (by simp [h1])]
            rcases hrest with ⟨hrev, hsub2⟩ | ⟨hrev, hnext⟩
            · rw [if_pos hrev, if_neg (by simp [hsub2])]
              exact ih (pageIdx + 1) k t2 (trace ++ tr) (calls + 1) (by omega)
                (by omega) (fun i hi1 hi2 => hiter i (by omega) hi2) hkraise
                hks hkr hkn
            · rw [if_neg (by simp [hrev]), if_pos hnext]
              exact ih (pageIdx + 1) k t2 (trace ++ tr) (calls + 1) (by omega)
                (by omega) (fun i hi1 hi2 => hiter i (by omega) hi2) hkraise
                hks hkr hkn

/-- With no navigation exception, a parsed job and a clickable Easy Apply
control, `execute` runs the form-page loop from page 0. -/
theorem execute_loop (env : ExecEnvM) (job : JobM)
    (hnav : navRaise env = none) (hjob : env.parsedJob = some job)
    (heasy : env.easyApply = true) :
    execute env = formLoop env job MAX_FORM_PAGES 0 0 [] 0 := by
  unfold execute
  rw [hnav, hjob]
  simp [heasy]

/-- A raised `navigate` exception is caught at the boundary. -/
theorem execute_nav (env : ExecEnvM) (e : String)
    (hn : navRaise env = some e) :
    execute env = ⟨⟨.failed, none, e, 0⟩, some e, [], 0⟩ := by
  unfold execute
  rw [hn]

/-- An unparseable listing returns the early `Failed` outcome. -/
theorem execute_nojob (env : ExecEnvM) (hn : navRaise env = none)
    (hj : env.parsedJob = none) :
    execute env =
      ⟨⟨.failed, none, "Não foi possível parsear a vaga", 0⟩, none, [], 0⟩ := by
  unfold execute
  rw [hn, hj]

/-- A missing Easy Apply control returns the early `Skipped` outcome. -/
theorem execute_noeasy (env : ExecEnvM) (job : JobM)
    (hn : navRaise env = none) (hj : env.parsedJob = some job)
    (he : env.easyApply = false) :
    execute env =
      ⟨⟨.skipped, some job, "Botão Easy Apply não encontrado", 0⟩,
        none, [], 0⟩ := by
  unfold execute
  rw [hn, hj]
  simp [he]

/-- A parsed job used by the concrete flow scenarios. -/
def jobA : JobM := { job_id := "123", title := "Dev", company := "Acme" }

/-- A run whose job is already recorded as applied in storage
(`storageApplied = true`), with a submittable single-page form. -/
def envApplied : ExecEnvM :=
  { jobUrl := none, navigateOutcome := none, parsedJob := some jobA,
    easyApply := true, pages := fun _ => [], submit1 := fun i => i == 0,
    review := fun _ => false, submit2 := fun _ => false,
    next := fun _ => false, resumePath := false, storageApplied := true }

/-- A run whose every form page only offers a Next control. -/
def envLoopForever : ExecEnvM :=
  { jobUrl := none, navigateOutcome := none, parsedJob := some jobA,
    easyApply := true, pages := fun _ => [], submit1 := fun _ => false,
    review := fun _ => false, submit2 := fun _ => false,
    next := fun _ => true, resumePath := false, storageApplied := false }

/-- A run whose first form page completes one AI call (5 tokens) and then
raises from the second one. -/
def envRaise : ExecEnvM :=
  { jobUrl := none, navigateOutcome := none, parsedJob := some jobA,
    easyApply := true,
    pages := fun i =>
      if i = 0 then
        [⟨"text", none, .ok ("answer", 5)⟩, ⟨"select", none, .error "boom"⟩]
      else [],
    submit1 := fun _ => false, review := fun _ => false,
    submit2 := fun _ => false, next := fun _ => false, resumePath := false,
    storageApplied := false }

/-- C5 (code divergence): for a job whose identifier is already recorded as
applied in storage, `execute()` does not transition to Skipped: it never
consults the storage collaborator (flipping `storageApplied` leaves the run
unchanged), invokes the extractor, and proceeds to submit the application
again. -/
theorem C5_no_storage_duplicate_guard :
    envApplied.storageApplied = true ∧
    execute envApplied =
      ⟨⟨.success, some jobA, "Candidatura enviada com sucesso", 0⟩,
        none, [], 1⟩ ∧
    (execute envApplied).res.result ≠ .skipped ∧
    (execute envApplied).extractorCalls = 1 ∧
    execute { envApplied with storageApplied := false } = execute envApplied :=
  ⟨rfl, rfl, by decide, rfl, rfl⟩

/-- C7: the form-page loop of `execute()` runs at most
`MAX_FORM_PAGES = 10` iterations; when every page merely iterates the cap is
exhausted and the run returns Failed with the form-flow-not-completed
message, and a page with no Submit/Review/Next control likewise terminates
the run with that Failed outcome. -/
theorem C7_form_page_cap (env : ExecEnvM) :
    MAX_FORM_PAGES = 10 ∧
    (execute env).extractorCalls ≤ MAX_FORM_PAGES ∧
    (∀ job, navRaise env = none → env.parsedJob = some job →
      env.easyApply = true →
      ((∀ i, i < MAX_FORM_PAGES → pageIterates env i) →
        (execute env).res.result = .failed ∧
        (execute env).res.message = "Fluxo de formulário não completado" ∧
        (execute env).extractorCalls = MAX_FORM_PAGES) ∧
      (∀ k, k < MAX_FORM_PAGES → (∀ i, i < k → pageIterates env i) →
        (processFields env.resumePath (env.pages k) 0).1 = none →
        env.submit1 k = false → env.review k = false → env.next k = false →
        (execute env).res.result = .failed ∧
        (execute env).res.message = "Fluxo de formulário não completado")) := by
  refine ⟨rfl, ?_, ?_⟩
  · cases hn : navRaise env with
    | some e => rw [execute_nav env e hn]; exact Nat.zero_le _
    | none =>
        cases hj : env.parsedJob with
        | none => rw [execute_nojob env hn hj]; exact Nat.zero_le _
        | some job =>
            cases he : env.easyApply with
            | false =>
                rw [execute_noeasy env job hn hj he]
                exact Nat.zero_le _
            | true =>
                rw [execute_loop env job hn hj he]
                simpa using formLoop_calls_le env job MAX_FORM_PAGES 0 0 [] 0
  · intro job hnav hjob heasy
    have hex := execute_loop env job hnav hjob heasy
    constructor
    · intro hall
      rw [hex]
      have hfl := formLoop_all_iterate env job MAX_FORM_PAGES 0 0 [] 0
        (fun i _ hlt => hall i (by omega))
      exact ⟨hfl.1, hfl.2.1, by rw [hfl.2.2]; exact Nat.zero_add _⟩
    · intro k hk hits hfraise hs hr hn2
      rw [hex]
      exact formLoop_no_control env job MAX_FORM_PAGES 0 k 0 [] 0
        (Nat.zero_le _) (by omega) (fun i _ hik => hits i hik) hfraise hs hr
        hn2

/-- Witness for C7: ten pages that only offer Next exhaust the cap. -/
theorem C7_form_page_cap_witness :
    (execute envLoopForever).res.result = .failed ∧
    (execute envLoopForever).res.message =
      "Fluxo de formulário não completado" ∧
    (execute envLoopForever).extractorCalls = MAX_FORM_PAGES :=
  ((C7_form_page_cap envLoopForever).2.2 jobA rfl rfl rfl).1
    (fun i _ => ⟨rfl, rfl, Or.inr ⟨rfl, rfl⟩⟩)

/-- C8: `execute()` never propagates a collaborator exception past the
single-job boundary — a raised exception yields a FAILED `ApplyResult`
carrying the exception\'s message (and no job) — and the returned
`tokens_used` equals the sum of the tokens of all AI calls completed during
the attempt, whatever the final status. -/
theorem C8_exception_boundary (env : ExecEnvM) :
    (execute env).res.tokens_used = (execute env).aiTrace.sum ∧
    (∀ e, (execute env).raised = some e →
      (execute env).res.result = .failed ∧
      (execute env).res.message = e ∧
      (execute env).res.job = none) := by
  cases hn : navRaise env with
  | some e =>
      rw [execute_nav env e hn]
      refine ⟨rfl, fun e' he' => ?_⟩
      cases he'
      exact ⟨rfl, rfl, rfl⟩
  | none =>
      cases hj : env.parsedJob with
      | none =>
          rw [execute_nojob env hn hj]
          exact ⟨rfl, fun e' he' => by cases he'⟩
      | some job =>
          cases he : env.easyApply with
          | false =>
              rw [execute_noeasy env job hn hj he]
              exact ⟨rfl, fun e' he' => by cases he'⟩
          | true =>
              rw [execute_loop env job hn hj he]
              exact formLoop_spec env job MAX_FORM_PAGES 0 0 [] 0 rfl

/-- Witness for C8: one completed AI call (5 tokens), then an exception —
the run returns FAILED with the exception message and the 5 tokens. -/
theorem C8_exception_boundary_witness :
    (execute envRaise).res.tokens_used = (execute envRaise).aiTrace.sum ∧
    ((execute envRaise).res.result = .failed ∧
      (execute envRaise).res.message = "boom" ∧
      (execute envRaise).res.job = none) :=
  ⟨(C8_exception_boundary envRaise).1,
   (C8_exception_boundary envRaise).2 "boom" rfl⟩

end BotLink
